import Mathlib

/-!
Shallow embedding of the NASA APOD explorer backend (src/server.js) in Lean 4:
error taxonomy and classifier, date validator, response envelopes, route
pipeline, request counter, and a fixed-window rate limiter. Definitions are
translated from the Express source; JS quirks (falsy strings, NaN date
comparisons) are modelled explicitly.
-/

namespace NasaExplorer

/-- The error taxonomy emitted by the service (the `type` strings of
src/server.js). -/
inductive ErrorType where
  | TIMEOUT_ERROR
  | NETWORK_ERROR
  | RATE_LIMIT_ERROR
  | VALIDATION_ERROR
  | AUTH_ERROR
  | NASA_SERVER_ERROR
  | NASA_API_ERROR
  | UNKNOWN_ERROR
  | NOT_FOUND_ERROR
  | INTERNAL_SERVER_ERROR
  deriving DecidableEq, Repr

/-- An upstream (axios) HTTP error response: `error.response` in the catch
block — its `status` and the optional `data.error_message` field. -/
structure UpstreamResponse where
  status : Nat
  errorMessage : Option String
  deriving DecidableEq, Repr

/-- A raw failure as inspected by the catch block of the APOD route:
`error.code` (transport-level code string, when present) and
`error.response` (upstream HTTP error, when present). -/
structure ApiFailure where
  code : Option String
  response : Option UpstreamResponse
  deriving DecidableEq, Repr

/-- The classifier's output: `(errorType, statusCode, userMessage)`. -/
structure Classified where
  errorType : ErrorType
  statusCode : Nat
  userMessage : String
  deriving DecidableEq, Repr

/-- JS `x || d` on a possibly-absent string: an absent or empty (falsy)
string yields the default. -/
def jsOrString (x : Option String) (d : String) : String :=
  match x with
  | some v => if v = "" then d else v
  | none => d

/-- Error categorization of the APOD route's catch block
(src/server.js lines 169-211), translated branch for branch. -/
def classifyError (e : ApiFailure) : Classified :=
  if e.code = some "ECONNABORTED" then
    { errorType := .TIMEOUT_ERROR, statusCode := 408,
      userMessage := "Request timeout - NASA API took too long to respond." }
  else if e.code = some "ENOTFOUND" ∨ e.code = some "ECONNREFUSED" then
    { errorType := .NETWORK_ERROR, statusCode := 503,
      userMessage := "Unable to connect to NASA API. Please try again later." }
  else
    match e.response with
    | some r =>
      if r.status = 429 then
        { errorType := .RATE_LIMIT_ERROR, statusCode := 429,
          userMessage := "NASA API rate limit exceeded. Please try again later." }
      else if r.status = 400 then
        { errorType := .VALIDATION_ERROR, statusCode := 400,
          userMessage := jsOrString r.errorMessage "Invalid request to NASA API." }
      else if r.status = 403 then
        { errorType := .AUTH_ERROR, statusCode := 403,
          userMessage := "Invalid API key or access denied." }
      else if r.status ≥ 500 then
        { errorType := .NASA_SERVER_ERROR, statusCode := 503,
          userMessage := "NASA API is currently unavailable. Please try again later." }
      else
        { errorType := .NASA_API_ERROR, statusCode := r.status,
          userMessage := jsOrString r.errorMessage ("NASA API error: " ++ toString r.status) }
    | none =>
      { errorType := .UNKNOWN_ERROR, statusCode := 500,
        userMessage := "An unexpected error occurred while fetching APOD data." }

/-! ## Date parsing (JS `new Date` on `YYYY-MM-DD` strings) -/

/-- Numeric value of a decimal digit character. -/
def digitVal (c : Char) : Nat := c.toNat - 48

/-- The regex `^\d\x7b4\x7d-\d\x7b2\x7d-\d\x7b2\x7d$` of the validator:
exactly ten characters, digits with hyphens at positions 4 and 7. -/
def matchesDateFormat (s : String) : Bool :=
  match s.toList with
  | [a, b, c, d, h1, e, f, h2, g, i] =>
    a.isDigit && b.isDigit && c.isDigit && d.isDigit && h1 == '-' &&
    e.isDigit && f.isDigit && h2 == '-' && g.isDigit && i.isDigit
  | _ => false

/-- Gregorian leap year. -/
def isLeapYear (y : Nat) : Bool := y % 4 = 0 && (y % 100 ≠ 0 || y % 400 = 0)

/-- Days in a month of the proleptic Gregorian calendar. -/
def daysInMonth (y m : Nat) : Nat :=
  if m = 2 then (if isLeapYear y then 29 else 28)
  else if m = 4 ∨ m = 6 ∨ m = 9 ∨ m = 11 then 30
  else 31

/-- Days since the Unix epoch of a civil date (standard era-based
conversion; truncating `Int` division matches the reference algorithm). -/
def daysFromCivil (y m d : Nat) : Int :=
  let yAdj : Int := if m ≤ 2 then (y : Int) - 1 else (y : Int)
  let era : Int := (if yAdj ≥ 0 then yAdj else yAdj - 399) / 400
  let yoe : Int := yAdj - era * 400
  let mp : Int := ((m : Int) + 9) % 12
  let doy : Int := (153 * mp + 2) / 5 + (d : Int) - 1
  let doe : Int := yoe * 365 + yoe / 4 - yoe / 100 + doy
  era * 146097 + doe - 719468

/-- JS `new Date(s)` for a string matching `YYYY-MM-DD`: ECMAScript parses
the date-only form as UTC midnight, in milliseconds since the epoch;
an invalid calendar component yields an Invalid Date (here `none`,
standing for NaN). Strings not matching the pattern never reach parsing
in the validator and are mapped to `none` as well. -/
def parseJsDate (s : String) : Option Int :=
  if matchesDateFormat s then
    match s.toList with
    | [a, b, c, d, _, e, f, _, g, i] =>
      let y := 1000 * digitVal a + 100 * digitVal b + 10 * digitVal c + digitVal d
      let mo := 10 * digitVal e + digitVal f
      let da := 10 * digitVal g + digitVal i
      if 1 ≤ mo ∧ mo ≤ 12 ∧ 1 ≤ da ∧ da ≤ daysInMonth y mo then
        some (86400000 * daysFromCivil y mo da)
      else none
    | _ => none
  else none

/-- JS `>` between a possibly-Invalid Date and a number: any comparison
with NaN is false. -/
def jsAfter (t : Option Int) (now : Int) : Bool :=
  match t with
  | some v => v > now
  | none => false

/-- JS `<` between a possibly-Invalid Date and a number: any comparison
with NaN is false. -/
def jsBefore (t : Option Int) (bound : Int) : Bool :=
  match t with
  | some v => v < bound
  | none => false

/-- `new Date('1995-06-16')`: UTC midnight of the first APOD date, in
milliseconds since the epoch. -/
def minDateMs : Int := 86400000 * daysFromCivil 1995 6 16

/-! ## Response envelopes

JSON bodies are modelled by a record of the fields the service ever sets;
`none` stands for an absent field. Fields of the health and root payloads
that no claim inspects (uptime, memory, endpoints, ...) are elided. -/

/-- The `error` object of a failure body: `message`/`type` always,
`status`/`field`/`requestId`/`stack` only where the source sets them. -/
structure ErrorBody where
  message : String
  etype : ErrorType
  status : Option Nat
  field : Option String
  requestId : Option String
  stack : Option String
  deriving DecidableEq, Repr

/-- An HTTP response: status code plus the JSON body's top-level fields.
`data` carries the upstream APOD body verbatim (opaque here), and
`requestCount` appears only in the health payload. -/
structure Response where
  httpStatus : Nat
  success : Option Bool
  data : Option String
  error : Option ErrorBody
  requestId : Option String
  requestCount : Option Nat
  deriving DecidableEq, Repr

/-- The rate limiter's rejection (limiter config, src/server.js lines
15-27): status 429 and the configured `message` body — no `status` field
inside `error` and no top-level `requestId` (the limiter runs before the
middleware that assigns request ids). -/
def rateLimitResponse : Response :=
  { httpStatus := 429, success := some false, data := none,
    error := some { message := "Too many requests from this IP, please try again later.",
                    etype := .RATE_LIMIT_ERROR, status := none, field := none,
                    requestId := none, stack := none },
    requestId := none, requestCount := none }

/-- A `validateDate` rejection: status 400, `VALIDATION_ERROR`, field
`date`, and no `status`/`requestId` anywhere in the body. -/
def mkValidationError (msg : String) : Response :=
  { httpStatus := 400, success := some false, data := none,
    error := some { message := msg, etype := .VALIDATION_ERROR, status := none,
                    field := some "date", requestId := none, stack := none },
    requestId := none, requestCount := none }

/-- The format rejection of `validateDate`. -/
def formatErrorResponse : Response :=
  mkValidationError "Invalid date format. Please use YYYY-MM-DD format."

/-- The future-date rejection of `validateDate`. -/
def futureErrorResponse : Response :=
  mkValidationError "Date cannot be in the future."

/-- The before-minimum rejection of `validateDate`. -/
def minDateErrorResponse : Response :=
  mkValidationError "Date must be after June 16, 1995 (APOD start date)."

/-- The `validateDate` middleware (src/server.js lines 59-105): given the
current instant (`new Date()`, ms since epoch) and the optional `date`
route parameter, returns the rejection response it sends, or `none` when
it calls `next()`. Checks in source order: format regex, then
`selectedDate > today`, then `selectedDate < minDate` (comparisons on an
Invalid Date are both false, so calendar-invalid strings pass). -/
def validateDate (nowMs : Int) (date : Option String) : Option Response :=
  match date with
  | none => none
  | some d =>
    if ¬ matchesDateFormat d then some formatErrorResponse
    else
      let selectedDate := parseJsDate d
      if jsAfter selectedDate nowMs then some futureErrorResponse
      else if jsBefore selectedDate minDateMs then some minDateErrorResponse
      else none

/-- The `validateAPIKey` middleware outcome: whether it logged the
DEMO_KEY warning, and the response it sent (never any — it always calls
`next()`). -/
structure KeyCheckResult where
  warned : Bool
  response : Option Response
  deriving DecidableEq, Repr

/-- `NASA_API_KEY = process.env.NASA_API_KEY || 'DEMO_KEY'`
(src/server.js line 10). -/
def resolveApiKey (envKey : Option String) : String :=
  jsOrString envKey "DEMO_KEY"

/-- The `validateAPIKey` middleware (src/server.js lines 108-113): warns
when the key is falsy or the demo key, then unconditionally calls
`next()`. -/
def validateAPIKey (key : String) : KeyCheckResult :=
  { warned := key == "" || key == "DEMO_KEY", response := none }

/-! ## The APOD route pipeline -/

/-- What the single outbound axios GET would produce: the decoded body on
2xx, or a raw failure. -/
def UpstreamResult := Except ApiFailure String

/-- Outcome of one request to `GET /api/apod/:date?`: the response sent,
whether the outbound upstream call was issued, and how much
`requestCount` was incremented. -/
structure RouteOutcome where
  response : Response
  upstreamCalled : Bool
  countDelta : Nat
  deriving DecidableEq, Repr

/-- The APOD route (src/server.js lines 139-237): `validateAPIKey` (always
passes), then `validateDate` (a rejection is sent without touching the
counter or the upstream), then `requestCount++` and the upstream call;
a 2xx yields `{success, data, requestId}`, a failure is classified and
yields status `statusCode` with the `requestId` nested inside `error`. -/
def apodRoute (nowMs : Int) (date : Option String) (rid : String)
    (upstream : Except ApiFailure String) : RouteOutcome :=
  match validateDate nowMs date with
  | some errResp => { response := errResp, upstreamCalled := false, countDelta := 0 }
  | none =>
    match upstream with
    | .ok body =>
      { response := { httpStatus := 200, success := some true, data := some body,
                      error := none, requestId := some rid, requestCount := none },
        upstreamCalled := true, countDelta := 1 }
    | .error e =>
      let c := classifyError e
      { response := { httpStatus := c.statusCode, success := some false, data := none,
                      error := some { message := c.userMessage, etype := c.errorType,
                                      status := some c.statusCode, field := none,
                                      requestId := some rid, stack := none },
                      requestId := none, requestCount := none },
        upstreamCalled := true, countDelta := 1 }

/-! ## The other routes -/

/-- The health route (src/server.js lines 121-136): a plain status
payload — no `success`, no `data`, no `error`; top-level `requestId` and
the current `requestCount`. -/
def healthResponse (rid : String) (count : Nat) : Response :=
  { httpStatus := 200, success := none, data := none, error := none,
    requestId := some rid, requestCount := some count }

/-- The root route (src/server.js lines 240-277): documentation payload
with `success: true`, a top-level `requestId`, and neither `data` nor
`error`. -/
def rootResponse (rid : String) : Response :=
  { httpStatus := 200, success := some true, data := none, error := none,
    requestId := some rid, requestCount := none }

/-- The catch-all 404 handler (src/server.js lines 280-289): `error` with
`status: 404` but no top-level `requestId`. -/
def notFoundResponse (originalUrl : String) : Response :=
  { httpStatus := 404, success := some false, data := none,
    error := some { message := "Route " ++ originalUrl ++ " not found.",
                    etype := .NOT_FOUND_ERROR, status := some 404, field := none,
                    requestId := none, stack := none },
    requestId := none, requestCount := none }

/-- The outermost error middleware (src/server.js lines 292-320): always
500/`INTERNAL_SERVER_ERROR`; the fault's message and stack appear only
when `NODE_ENV === 'development'`, otherwise the generic message and no
stack. `rid` is `req.requestId` (absent when the fault precedes the
logging middleware). -/
def internalErrorResponse (nodeEnv : Option String) (errMessage errStack : String)
    (rid : Option String) : Response :=
  let isDevelopment := nodeEnv = some "development"
  { httpStatus := 500, success := some false, data := none,
    error := some { message := if isDevelopment then errMessage else "Internal server error",
                    etype := .INTERNAL_SERVER_ERROR, status := some 500, field := none,
                    requestId := rid,
                    stack := if isDevelopment then some errStack else none },
    requestId := none, requestCount := none }

/-! ## Whole-service step: the request counter and every response shape -/

/-- One inbound interaction with the service, as dispatched by the
middleware stack and router. `rateLimited` is a request rejected by the
limiter before any route runs. -/
inductive Interaction where
  | root (rid : String)
  | health (rid : String)
  | apod (nowMs : Int) (date : Option String) (rid : String)
      (upstream : Except ApiFailure String)
  | notFound (originalUrl : String)
  | rateLimited
  | internalFault (nodeEnv : Option String) (errMessage errStack : String)
      (rid : Option String)

/-- Processing one interaction: the new `requestCount` and the response
sent. Only the APOD route past validation touches the counter
(src/server.js line 140). -/
def step (count : Nat) (i : Interaction) : Nat × Response :=
  match i with
  | .root rid => (count, rootResponse rid)
  | .health rid => (count, healthResponse rid count)
  | .apod nowMs date rid upstream =>
    let o := apodRoute nowMs date rid upstream
    (count + o.countDelta, o.response)
  | .notFound u => (count, notFoundResponse u)
  | .rateLimited => (count, rateLimitResponse)
  | .internalFault env m s rid => (count, internalErrorResponse env m s rid)

/-- The spec's Normalized Response Envelope invariant, from its words:
exactly one of `data`/`error` present, and a non-empty top-level
`requestId`. -/
def envelopeInvariant (r : Response) : Bool :=
  (r.data.isSome != r.error.isSome) &&
  (match r.requestId with
   | some rid => rid ≠ ""
   | none => false)

/-! ## Rate limiter (fixed window) -/

/-- The limiter window: `windowMs: 15 * 60 * 1000` (src/server.js line 16). -/
def windowMs : Nat := 15 * 60 * 1000

/-- The limiter cap: `max: 100` requests per IP per window
(src/server.js line 17). -/
def maxPerWindow : Nat := 100

/-- Modelled from the spec: the express-rate-limit library internals are
not part of this repository; §4.5 specifies a fixed-window counter per
client IP — window length `windowMs`, limit `maxPerWindow`. -/
structure LimiterState where
  count : Nat
  windowStart : Int
  deriving DecidableEq, Repr

/-- Modelled from the spec: one request from the tracked IP at time `t`
(ms). The window resets when `windowMs` has elapsed; the counter is
incremented and the request passes iff it does not exceed `maxPerWindow`.
Returns the new state and whether the request passes through to routing
(`false` = rejected with `rateLimitResponse`). -/
def limiterStep (s : LimiterState) (t : Int) : LimiterState × Bool :=
  let s1 := if t - s.windowStart ≥ (windowMs : Int) then
              { count := 0, windowStart := t } else s
  let s2 : LimiterState := { s1 with count := s1.count + 1 }
  (s2, s2.count ≤ maxPerWindow)

/-- Modelled from the spec: the pass/reject decisions for a sequence of
request times from one IP. -/
def runLimiter (s : LimiterState) : List Int → List Bool
  | [] => []
  | t :: ts =>
    let r := limiterStep s t
    r.2 :: runLimiter r.1 ts

/-! ## Helper lemmas -/

/-- None of the three recognized transport codes matched: the catch block
falls through to inspecting `error.response`. -/
def noTransportCode (e : ApiFailure) : Prop :=
  e.code ≠ some "ECONNABORTED" ∧ e.code ≠ some "ENOTFOUND" ∧ e.code ≠ some "ECONNREFUSED"

theorem parseJsDate_matches {s : String} {t : Int} (h : parseJsDate s = some t) :
    matchesDateFormat s = true := by
  by_cases hf : matchesDateFormat s
  · exact hf
  · simp [parseJsDate, hf] at h

theorem validateDate_some_shape {nowMs : Int} {d : Option String} {r : Response}
    (h : validateDate nowMs d = some r) :
    r = formatErrorResponse ∨ r = futureErrorResponse ∨ r = minDateErrorResponse := by
  unfold validateDate at h
  cases d with
  | none => simp at h
  | some s =>
    by_cases h1 : matchesDateFormat s
    · by_cases h2 : jsAfter (parseJsDate s) nowMs
      · simp [h1, h2] at h
        exact Or.inr (Or.inl h.symm)
      · by_cases h3 : jsBefore (parseJsDate s) minDateMs
        · simp [h1, h2, h3] at h
          exact Or.inr (Or.inr h.symm)
        · simp [h1, h2, h3] at h
    · simp [h1] at h
      exact Or.inl h.symm

/-! ## Claim theorems -/

/-- Claim C1 (amended): the classifier is a total deterministic mapping with
the precedence of the catch block — timeout code to TIMEOUT_ERROR/408; DNS
or connection-refused code to NETWORK_ERROR/503; then, with a response
present, status 429 to RATE_LIMIT_ERROR/429, 400 to VALIDATION_ERROR/400,
403 to AUTH_ERROR/403, ≥ 500 to NASA_SERVER_ERROR/503, and any other
status, echoed, to NASA_API_ERROR (not only other 4xx/5xx); only a failure
with no recognized code and no response maps to UNKNOWN_ERROR/500. -/
theorem classifyError_cases (e : ApiFailure) :
    (e.code = some "ECONNABORTED" →
      (classifyError e).errorType = ErrorType.TIMEOUT_ERROR ∧
      (classifyError e).statusCode = 408) ∧
    (e.code ≠ some "ECONNABORTED" →
      (e.code = some "ENOTFOUND" ∨ e.code = some "ECONNREFUSED") →
      (classifyError e).errorType = ErrorType.NETWORK_ERROR ∧
      (classifyError e).statusCode = 503) ∧
    (∀ r, noTransportCode e → e.response = some r →
      (r.status = 429 →
        (classifyError e).errorType = ErrorType.RATE_LIMIT_ERROR ∧
        (classifyError e).statusCode = 429) ∧
      (r.status ≠ 429 → r.status = 400 →
        (classifyError e).errorType = ErrorType.VALIDATION_ERROR ∧
        (classifyError e).statusCode = 400) ∧
      (r.status ≠ 429 → r.status ≠ 400 → r.status = 403 →
        (classifyError e).errorType = ErrorType.AUTH_ERROR ∧
        (classifyError e).statusCode = 403) ∧
      (r.status ≠ 429 → r.status ≠ 400 → r.status ≠ 403 → 500 ≤ r.status →
        (classifyError e).errorType = ErrorType.NASA_SERVER_ERROR ∧
        (classifyError e).statusCode = 503) ∧
      (r.status ≠ 429 → r.status ≠ 400 → r.status ≠ 403 → r.status < 500 →
        (classifyError e).errorType = ErrorType.NASA_API_ERROR ∧
        (classifyError e).statusCode = r.status)) ∧
    (noTransportCode e → e.response = none →
      (classifyError e).errorType = ErrorType.UNKNOWN_ERROR ∧
      (classifyError e).statusCode = 500) := by
  refine ⟨?_, ?_, ?_, ?_⟩
  · intro h
    simp [classifyError, h]
  · intro h1 h2
    simp [classifyError, h1, h2]
  · rintro r ⟨hc1, hc2, hc3⟩ hresp
    refine ⟨?_, ?_, ?_, ?_, ?_⟩
    · intro h429
      simp [classifyError, hc1, hc2, hc3, hresp, h429]
    · intro hn429 h400
      simp [classifyError, hc1, hc2, hc3, hresp, hn429, h400]
    · intro hn429 hn400 h403
      simp [classifyError, hc1, hc2, hc3, hresp, hn429, hn400, h403]
    · intro hn429 hn400 hn403 h500
      simp [classifyError, hc1, hc2, hc3, hresp, hn429, hn400, hn403, h500]
    · intro hn429 hn400 hn403 hlt
      have h500 : ¬ (500 ≤ r.status) := by omega
      simp [classifyError, hc1, hc2, hc3, hresp, hn429, hn400, hn403, h500]
  · rintro ⟨hc1, hc2, hc3⟩ hnone
    simp [classifyError, hc1, hc2, hc3, hnone]

/-- Witness for C1: a timeout code is classified TIMEOUT_ERROR/408. -/
theorem classifyError_cases_witness :
    (classifyError { code := some "ECONNABORTED", response := none }).errorType
      = ErrorType.TIMEOUT_ERROR ∧
    (classifyError { code := some "ECONNABORTED", response := none }).statusCode = 408 :=
  (classifyError_cases { code := some "ECONNABORTED", response := none }).1 rfl

/-- Counterexample to claim C1 as stated: a failure carrying an upstream
response with status 304 (no transport code; 304 is neither 429/400/403,
nor ≥ 500, nor any other 4xx/5xx), which the claim's final catch-all sends
to UNKNOWN_ERROR/500 — the code instead echoes it as NASA_API_ERROR/304. -/
theorem classifyError_claim_counterexample :
    (classifyError { code := none, response := some { status := 304, errorMessage := none } }).errorType
      = ErrorType.NASA_API_ERROR ∧
    (classifyError { code := none, response := some { status := 304, errorMessage := none } }).statusCode
      = 304 ∧
    ErrorType.NASA_API_ERROR ≠ ErrorType.UNKNOWN_ERROR ∧ (304 : Nat) ≠ 500 := by
  refine ⟨by decide, by decide, by decide, by decide⟩

/-- Claim C2: a present date string not matching `YYYY-MM-DD` is rejected
with VALIDATION_ERROR, HTTP 400 and field `date`; an absent date is always
accepted; the checks run in order — format, not-after-today,
not-before-minimum — with the first failing rule winning. -/
theorem validateDate_spec (nowMs : Int) (s : String) :
    (matchesDateFormat s = false → validateDate nowMs (some s) = some formatErrorResponse) ∧
    (validateDate nowMs none = none) ∧
    formatErrorResponse.httpStatus = 400 ∧
    formatErrorResponse.error.map ErrorBody.etype = some ErrorType.VALIDATION_ERROR ∧
    formatErrorResponse.error.map ErrorBody.field = some (some "date") ∧
    (matchesDateFormat s = true → jsAfter (parseJsDate s) nowMs = true →
      validateDate nowMs (some s) = some futureErrorResponse) ∧
    (matchesDateFormat s = true → jsAfter (parseJsDate s) nowMs = false →
      jsBefore (parseJsDate s) minDateMs = true →
      validateDate nowMs (some s) = some minDateErrorResponse) := by
  refine ⟨?_, rfl, rfl, rfl, rfl, ?_, ?_⟩
  · intro h
    simp [validateDate, h]
  · intro hf ha
    simp [validateDate, hf, ha]
  · intro hf ha hb
    simp [validateDate, hf, ha, hb]

/-- Witness for C2: the five-character string `hello` fails the format
check and is rejected with the format error. -/
theorem validateDate_spec_witness :
    matchesDateFormat "hello" = false ∧
    validateDate 0 (some "hello") = some formatErrorResponse :=
  ⟨by decide, (validateDate_spec 0 "hello").1 (by decide)⟩

/-- Claim C4: `1995-06-15` (one day before the minimum) is rejected with
HTTP 400 at every evaluation instant; `1995-06-16` is accepted exactly
(whenever the current instant is not before it); and every date string
parsing to an instant strictly after the current instant is rejected with
HTTP 400. -/
theorem validateDate_range_spec (nowMs : Int) :
    ((validateDate nowMs (some "1995-06-15")).map Response.httpStatus = some 400) ∧
    (minDateMs ≤ nowMs → validateDate nowMs (some "1995-06-16") = none) ∧
    (∀ s t, parseJsDate s = some t → nowMs < t →
      (validateDate nowMs (some s)).map Response.httpStatus = some 400) := by
  refine ⟨?_, ?_, ?_⟩
  · have hm : matchesDateFormat "1995-06-15" = true := by decide
    have hp : parseJsDate "1995-06-15" = some 803174400000 := by decide
    by_cases h : nowMs < 803174400000
    · simp [validateDate, hm, hp, jsAfter, h, futureErrorResponse, mkValidationError]
    · have hb : (803174400000 : Int) < minDateMs := by decide
      simp [validateDate, hm, hp, jsAfter, jsBefore, h, hb, minDateErrorResponse,
        mkValidationError]
  · intro h
    have hm : matchesDateFormat "1995-06-16" = true := by decide
    have hp : parseJsDate "1995-06-16" = some minDateMs := by decide
    have h1 : ¬ (nowMs < minDateMs) := not_lt.mpr h
    simp [validateDate, hm, hp, jsAfter, jsBefore, h1]
  · intro s t hp hlt
    have hm := parseJsDate_matches hp
    simp [validateDate, hm, hp, jsAfter, hlt, futureErrorResponse, mkValidationError]

/-- Witness for C4: with the clock at the minimum date itself,
`1995-06-16` is accepted, and the far-future `9999-01-01` is rejected
with 400. -/
theorem validateDate_range_spec_witness :
    (minDateMs ≤ (803260800000 : Int) ∧
      validateDate 803260800000 (some "1995-06-16") = none) ∧
    (parseJsDate "9999-01-01" = some (86400000 * daysFromCivil 9999 1 1) ∧
      (803260800000 : Int) < 86400000 * daysFromCivil 9999 1 1 ∧
      (validateDate 803260800000 (some "9999-01-01")).map Response.httpStatus = some 400) :=
  ⟨⟨by decide, (validateDate_range_spec 803260800000).2.1 (by decide)⟩,
   ⟨by decide, by decide,
    (validateDate_range_spec 803260800000).2.2 "9999-01-01"
      (86400000 * daysFromCivil 9999 1 1) (by decide) (by decide)⟩⟩

/-- Claim C3 (amended): every response the service emits carries at most
one of the top-level fields `data`/`error` — never both; but the full
envelope invariant of the claim fails, since several responses lack a
top-level `requestId` (see the counterexample). -/
theorem step_data_error_exclusive (count : Nat) (i : Interaction) :
    ((step count i).2.data.isSome && (step count i).2.error.isSome) = false := by
  cases i with
  | root rid => simp [step, rootResponse]
  | health rid => simp [step, healthResponse]
  | notFound u => simp [step, notFoundResponse]
  | rateLimited => simp [step, rateLimitResponse]
  | internalFault env m s rid => simp [step, internalErrorResponse]
  | apod nowMs d rid up =>
    simp only [step]
    cases hv : validateDate nowMs d with
    | some r =>
      rcases validateDate_some_shape hv with h | h | h <;>
        simp [apodRoute, hv, h, formatErrorResponse, futureErrorResponse,
          minDateErrorResponse, mkValidationError]
    | none =>
      cases up with
      | ok b => simp [apodRoute, hv]
      | error e => simp [apodRoute, hv]

/-- Counterexample to claim C3 as stated: the 404 catch-all response is
produced by the service yet carries no top-level `requestId` at all, so
the Normalized Response Envelope invariant fails on it. -/
theorem envelope_claim_counterexample :
    step 0 (Interaction.notFound "/nonexistent") = (0, notFoundResponse "/nonexistent") ∧
    envelopeInvariant (notFoundResponse "/nonexistent") = false :=
  ⟨rfl, by decide⟩

/-- Claim C5: when the date of a `/api/apod/:date` request fails
validation, the validator's rejection is sent, the upstream call is never
issued, and the request counter is untouched. -/
theorem apod_fail_fast (nowMs : Int) (d : String) (rid : String)
    (up : Except ApiFailure String) (errResp : Response)
    (h : validateDate nowMs (some d) = some errResp) :
    apodRoute nowMs (some d) rid up =
      { response := errResp, upstreamCalled := false, countDelta := 0 } := by
  simp [apodRoute, h]

/-- Witness for C5: a malformed date is rejected without any upstream
call even though the upstream would have succeeded. -/
theorem apod_fail_fast_witness :
    validateDate 0 (some "not-a-date") = some formatErrorResponse ∧
    apodRoute 0 (some "not-a-date") "req1" (Except.ok "body") =
      { response := formatErrorResponse, upstreamCalled := false, countDelta := 0 } :=
  ⟨by decide,
   apod_fail_fast 0 "not-a-date" "req1" (Except.ok "body") formatErrorResponse (by decide)⟩

theorem runLimiter_in_window (t0 : Int) (ts : List Int) (c : Nat)
    (h : ∀ t ∈ ts, t - t0 < (windowMs : Int)) :
    runLimiter { count := c, windowStart := t0 } ts
      = (List.range ts.length).map (fun i => decide (c + i < maxPerWindow)) := by
  induction ts generalizing c with
  | nil => simp [runLimiter]
  | cons t ts ih =>
    have ht : ¬ ((windowMs : Int) ≤ t - t0) := not_le.mpr (h t (by simp))
    have hrest : ∀ u ∈ ts, u - t0 < (windowMs : Int) := fun u hu => h u (by simp [hu])
    have hfun : (fun i => decide (c + 1 + i < maxPerWindow))
        = (fun i => decide (c + (i + 1) < maxPerWindow)) := by
      funext i
      rw [decide_eq_decide]
      omega
    have hhead : (decide (c + 1 ≤ maxPerWindow)) = decide (c + 0 < maxPerWindow) := by
      rw [decide_eq_decide]
      omega
    simp only [runLimiter, limiterStep, if_neg ht, List.length_cons,
      List.range_succ_eq_map, List.map_cons, List.map_map]
    rw [hhead, ih (c + 1) hrest, hfun]
    rfl

/-- Claim C6: with the limiter's fixed window (15 minutes, 100 per IP),
any sequence of requests from one IP inside a single window passes exactly
at positions below 100 — so of 101 in-window requests the first 100 pass
and the 101st (and all later ones) are rejected; a rejected request is
answered 429/RATE_LIMIT_ERROR directly, without the Request Handler
running (the counter and routing are bypassed). -/
theorem rateLimiter_spec (t0 : Int) (ts : List Int)
    (h : ∀ t ∈ ts, t - t0 < (windowMs : Int)) :
    runLimiter { count := 0, windowStart := t0 } ts
      = (List.range ts.length).map (fun i => decide (i < maxPerWindow)) ∧
    rateLimitResponse.httpStatus = 429 ∧
    rateLimitResponse.error.map ErrorBody.etype = some ErrorType.RATE_LIMIT_ERROR ∧
    (∀ c, step c Interaction.rateLimited = (c, rateLimitResponse)) := by
  refine ⟨?_, rfl, rfl, fun c => rfl⟩
  rw [runLimiter_in_window t0 ts 0 h]
  simp

/-- Witness for C6: two immediate requests from a fresh window both pass. -/
theorem rateLimiter_spec_witness :
    runLimiter { count := 0, windowStart := 0 } [0, 1]
      = (List.range (List.length [(0 : Int), 1])).map (fun i => decide (i < maxPerWindow)) ∧
    rateLimitResponse.httpStatus = 429 ∧
    rateLimitResponse.error.map ErrorBody.etype = some ErrorType.RATE_LIMIT_ERROR ∧
    (∀ c, step c Interaction.rateLimited = (c, rateLimitResponse)) :=
  rateLimiter_spec 0 [0, 1] (by decide)

/-- Counterexample to claim C7 as stated: a date-validation rejection is
an error envelope the service emits, yet its `error` object carries no
`status` field at all (the HTTP code 400 appears only as the response
status). -/
theorem errorInfo_claim_counterexample :
    validateDate 0 (some "bad") = some formatErrorResponse ∧
    formatErrorResponse.httpStatus = 400 ∧
    formatErrorResponse.error.map ErrorBody.status = some none :=
  ⟨by decide, rfl, rfl⟩

/-- Claim C7 (amended): classified upstream failures, the 404 catch-all
and the internal-error handler all put an integer `status` inside the
`error` object; but the validation rejections and the rate-limit message
omit it, carrying only message/type(/field). -/
theorem errorInfo_status_spec (nowMs : Int) (d : Option String) (rid : String)
    (e : ApiFailure) (u : String) (env : Option String) (m s : String)
    (rid2 : Option String) (r : Response) :
    (validateDate nowMs d = none →
      (apodRoute nowMs d rid (Except.error e)).response.error.map ErrorBody.status
        = some (some (classifyError e).statusCode)) ∧
    ((notFoundResponse u).error.map ErrorBody.status = some (some 404)) ∧
    ((internalErrorResponse env m s rid2).error.map ErrorBody.status = some (some 500)) ∧
    (validateDate nowMs d = some r → r.error.map ErrorBody.status = some none) ∧
    (rateLimitResponse.error.map ErrorBody.status = some none) := by
  refine ⟨?_, rfl, rfl, ?_, rfl⟩
  · intro h
    simp [apodRoute, h]
  · intro h
    rcases validateDate_some_shape h with hr | hr | hr <;> subst hr <;> rfl

/-- Witness for C7: an unclassifiable upstream failure yields an `error`
object with `status` 500, while a malformed-date rejection has no
`status` in its `error` object. -/
theorem errorInfo_status_spec_witness :
    ((apodRoute 0 none "r" (Except.error { code := none, response := none })).response.error.map
      ErrorBody.status = some (some 500)) ∧
    formatErrorResponse.error.map ErrorBody.status = some none :=
  ⟨((errorInfo_status_spec 0 none "r" { code := none, response := none } "/x" none "m" "s"
      none formatErrorResponse).1 rfl).trans (by decide),
   (errorInfo_status_spec 0 (some "bad") "r" { code := none, response := none } "/x" none "m"
      "s" none formatErrorResponse).2.2.2.1 (by decide)⟩

/-- Claim C8: an unhandled internal fault is answered 500 with
INTERNAL_SERVER_ERROR; outside the `development` environment the body
carries the generic message and no stack and is independent of the
fault's message and stack (noninterference); in `development` the fault's
message and stack are echoed. -/
theorem internalError_spec (env : Option String) (m s : String) (rid : Option String) :
    (internalErrorResponse env m s rid).httpStatus = 500 ∧
    (internalErrorResponse env m s rid).error.map ErrorBody.etype
      = some ErrorType.INTERNAL_SERVER_ERROR ∧
    (env ≠ some "development" →
      (internalErrorResponse env m s rid).error.map ErrorBody.message
        = some "Internal server error" ∧
      (internalErrorResponse env m s rid).error.map ErrorBody.stack = some none ∧
      ∀ m2 s2, internalErrorResponse env m2 s2 rid = internalErrorResponse env m s rid) ∧
    (env = some "development" →
      (internalErrorResponse env m s rid).error.map ErrorBody.message = some m ∧
      (internalErrorResponse env m s rid).error.map ErrorBody.stack = some (some s)) := by
  refine ⟨rfl, rfl, ?_, ?_⟩
  · intro h
    refine ⟨?_, ?_, ?_⟩
    · simp [internalErrorResponse, h]
    · simp [internalErrorResponse, h]
    · intro m2 s2
      simp [internalErrorResponse, h]
  · intro h
    constructor
    · simp [internalErrorResponse, h]
    · simp [internalErrorResponse, h]

/-- Witness for C8: in a `production` environment the fault's message and
stack are replaced by the generic body, identically for two different
faults. -/
theorem internalError_spec_witness :
    ((internalErrorResponse (some "production") "secret detail" "trace" (some "r")).error.map
      ErrorBody.message = some "Internal server error") ∧
    internalErrorResponse (some "production") "other detail" "other trace" (some "r")
      = internalErrorResponse (some "production") "secret detail" "trace" (some "r") := by
  have h := (internalError_spec (some "production") "secret detail" "trace" (some "r")).2.2.1
    (by decide)
  exact ⟨h.1, h.2.2 "other detail" "other trace"⟩

/-- Claim C9: the process-wide request counter is incremented exactly
once by an `/api/apod` request that passes date validation (whatever the
upstream outcome), and left unchanged by the root, health (which reports
it), 404, rate-limited and internal-fault interactions as well as by
`/api/apod` requests the Date Validator rejects. -/
theorem requestCount_frame (c : Nat) :
    (∀ rid, (step c (Interaction.root rid)).1 = c) ∧
    (∀ rid, (step c (Interaction.health rid)).1 = c ∧
      (step c (Interaction.health rid)).2.requestCount = some c) ∧
    (∀ u, (step c (Interaction.notFound u)).1 = c) ∧
    ((step c Interaction.rateLimited).1 = c) ∧
    (∀ env m s rid, (step c (Interaction.internalFault env m s rid)).1 = c) ∧
    (∀ nowMs d rid up r, validateDate nowMs d = some r →
      (step c (Interaction.apod nowMs d rid up)).1 = c) ∧
    (∀ nowMs d rid up, validateDate nowMs d = none →
      (step c (Interaction.apod nowMs d rid up)).1 = c + 1) := by
  refine ⟨fun _ => rfl, fun _ => ⟨rfl, rfl⟩, fun _ => rfl, rfl, fun _ _ _ _ => rfl, ?_, ?_⟩
  · intro nowMs d rid up r h
    simp [step, apodRoute, h]
  · intro nowMs d rid up h
    cases up <;> simp [step, apodRoute, h]

/-- Witness for C9: from count 3, a validated APOD request moves the
counter to 4 and a malformed one leaves it at 3. -/
theorem requestCount_frame_witness :
    (step 3 (Interaction.apod 0 none "r" (Except.ok "body"))).1 = 4 ∧
    (step 3 (Interaction.apod 0 (some "bad") "r" (Except.ok "body"))).1 = 3 :=
  ⟨(requestCount_frame 3).2.2.2.2.2.2 0 none "r" (Except.ok "body") rfl,
   (requestCount_frame 3).2.2.2.2.2.1 0 (some "bad") "r" (Except.ok "body")
     formatErrorResponse (by decide)⟩

/-- Claim C10: the API-key middleware never rejects — for every key
configuration (custom, demo fallback, or unset) it emits no response and
passes control on, at most logging the demo-key warning. -/
theorem validateAPIKey_never_rejects (envKey : Option String) :
    (validateAPIKey (resolveApiKey envKey)).response = none ∧
    (∀ k : String, (validateAPIKey k).response = none) ∧
    (validateAPIKey (resolveApiKey none)).warned = true :=
  ⟨rfl, fun _ => rfl, rfl⟩

end NasaExplorer
